import Mathlib

/-!
Shallow embedding of the mcp-skyvia request/response core
(src/api/utils.py, src/api/config.py) and the per-resource tool layer for
workspaces, automations and backups (src/api/workspaces.py,
src/api/automations.py, src/api/backups.py), together with theorems
settling the frozen claims about that code.

The HTTP transport is abstracted as a `TransportOutcome` value handed to
each embedded operation: either the raw response the server produced
(status, content-type header, raw body text, and the result of attempting
to decode the body as JSON) or a transport-level failure.  Everything the
Python code does after `client.request` returns is modelled explicitly.
-/

namespace Skyvia

/-- JSON values as Python's `json` module decodes them: `null` becomes
`None`, objects become dicts (modelled as association lists, lookup takes
the last binding of a repeated key, as `json.loads` does). Numbers are
modelled as integers; the repository's payloads carry no fractional
numbers. -/
inductive Json where
  | null : Json
  | bool (b : Bool) : Json
  | num (n : Int) : Json
  | str (s : String) : Json
  | arr (items : List Json) : Json
  | obj (fields : List (String × Json)) : Json

/-- Python dict lookup on the dict built by `json.loads` from an object
literal: a repeated key keeps its last value. -/
def lookupField (fields : List (String × Json)) (key : String) : Option Json :=
  match fields with
  | [] => none
  | (k, v) :: rest =>
    match lookupField rest key with
    | some r => some r
    | none => if k = key then some v else none

/-- Python truthiness of a string: non-empty. -/
def truthyStr (s : String) : Bool := !s.data.isEmpty

/-- Python truthiness of a decoded JSON value: `None`, `False`, `0`, `""`,
`[]` and the empty dict are falsy, everything else truthy. -/
def Json.truthy : Json → Bool
  | .null => false
  | .bool b => b
  | .num n => !(n == 0)
  | .str s => truthyStr s
  | .arr items => !items.isEmpty
  | .obj fields => !fields.isEmpty

/-- Truthiness of the value returned by `authenticated_request`
(`None` for a no-content response is falsy). -/
def optTruthy : Option Json → Bool
  | none => false
  | some j => j.truthy

/-- Python `isinstance(x, dict)` on a decoded value. -/
def optIsDict : Option Json → Bool
  | some (.obj _) => true
  | _ => false

/-- Decides whether `needle` occurs as a substring of `hay`, the Python
`needle in hay` test on strings. -/
def listContainsSub (needle : List Char) : List Char → Bool
  | [] => needle.isEmpty
  | c :: rest => needle.isPrefixOf (c :: rest) || listContainsSub needle rest

/-- String-level substring test (`needle in hay` in Python). -/
def strContainsSub (hay needle : String) : Bool :=
  listContainsSub needle.data hay.data

/-- Python `str.lower`, mapped over the character data (ASCII-wise the
same mapping as `String.toLower`, which is defined by well-founded
recursion and therefore does not reduce inside the kernel). -/
def strToLower (s : String) : String := ⟨s.data.map Char.toLower⟩

/-- A single-quote character as a string, used to spell Python `repr`
output and the source's quoted message fragments. -/
def sq : String := (Char.ofNat 39).toString

mutual

/-- Python `repr` of a decoded JSON value (the form `str` uses inside
containers): `None`/`True`/`False`, decimal integers, single-quoted
strings, bracketed lists, braced dicts. -/
def pyRepr : Json → String
  | .null => "None"
  | .bool b => if b then "True" else "False"
  | .num n => toString n
  | .str s => sq ++ s ++ sq
  | .arr items => "[" ++ pyReprList items ++ "]"
  | .obj fields => "\x7b" ++ pyReprFields fields ++ "\x7d"

/-- Comma-separated `repr` of list elements. -/
def pyReprList : List Json → String
  | [] => ""
  | [x] => pyRepr x
  | x :: rest => pyRepr x ++ ", " ++ pyReprList rest

/-- Comma-separated `repr` of dict entries. -/
def pyReprFields : List (String × Json) → String
  | [] => ""
  | [(k, v)] => sq ++ k ++ sq ++ ": " ++ pyRepr v
  | (k, v) :: rest => sq ++ k ++ sq ++ ": " ++ pyRepr v ++ ", " ++ pyReprFields rest

end

/-- Python `str` of a decoded JSON value: a string yields itself,
containers and scalars yield their `repr`. -/
def pyStr (j : Json) : String :=
  match j with
  | .str s => s
  | _ => pyRepr j

/-- Python `str(type(x))` of the value returned by `authenticated_request`,
as interpolated into the "Unexpected response format" messages. -/
def pyTypeName (v : Option Json) : String :=
  let cls := fun (n : String) => "<class " ++ sq ++ n ++ sq ++ ">"
  match v with
  | none => cls "NoneType"
  | some .null => cls "NoneType"
  | some (.bool _) => cls "bool"
  | some (.num _) => cls "int"
  | some (.str _) => cls "str"
  | some (.arr _) => cls "list"
  | some (.obj _) => cls "dict"

/-! Credential provider, from src/api/config.py. -/

/-- The designated environment variable name (config.py line 14). -/
def API_TOKEN_ENV_VAR : String := "SKYVIA_API_TOKEN"

/-- The module-level state of config.py: the cached `_api_token` and the
process environment (`os.environ`). -/
structure ConfigState where
  apiToken : Option String
  env : String → Option String

/-- Python truthiness of `Optional[str]`. -/
def truthyOptStr : Option String → Bool
  | none => false
  | some s => truthyStr s

/-- Embeds `get_env` (config.py lines 28-30): `os.environ.get(key)`. -/
def get_env (st : ConfigState) (key : String) : Option String := st.env key

/-- Embeds `set_api_key` (config.py lines 32-37). A falsy (empty) token is
rejected with `ValueError`; the non-string case of the source's
`isinstance` check cannot arise in the typed embedding. -/
def set_api_key (st : ConfigState) (token : String) : Except String ConfigState :=
  if truthyStr token then .ok { st with apiToken := some token }
  else .error "Invalid API token provided."

/-- The `ValueError` message raised when no token can be resolved
(config.py lines 56-59). -/
def tokenNotFoundMessage : String :=
  "Skyvia API token not found. Please set the " ++ sq ++ API_TOKEN_ENV_VAR ++ sq ++
  " environment variable or provide it using the --skyvia-api-token argument."

/-- Embeds `get_api_key` (config.py lines 39-59): prefer the cached
override, then the environment variable (caching it), else fail.  Returns
the token together with the updated module state. -/
def get_api_key (st : ConfigState) : Except String (String × ConfigState) :=
  if truthyOptStr st.apiToken then .ok (st.apiToken.getD "", st)
  else
    let tokenFromEnv := get_env st API_TOKEN_ENV_VAR
    if truthyOptStr tokenFromEnv then
      let t := tokenFromEnv.getD ""
      .ok (t, { st with apiToken := some t })
    else .error tokenNotFoundMessage

/-! The error taxonomy and request engine, from src/api/utils.py. -/

/-- Embeds `SkyviaAPIError` (utils.py lines 11-19): the constructor
arguments `message`, `status_code`, `details`.  `details` is either a
decoded JSON value, a raw text carried as `Json.str`, or Python `None`
(`Option.none`). -/
structure SkyviaAPIError where
  message : String
  status_code : Option Nat := none
  details : Option Json := none

/-- The human-readable string the constructor stores (utils.py lines
16-19): `"Skyvia API Error: <message>"`, prefixed with `"[<status>] "`
when `status_code` is truthy (present and non-zero). -/
def SkyviaAPIError.render (e : SkyviaAPIError) : String :=
  let base := "Skyvia API Error: " ++ e.message
  match e.status_code with
  | some s => if s ≠ 0 then "[" ++ toString s ++ "] " ++ base else base
  | none => base

/-- One HTTP response as the transport returns it to utils.py: the status,
the `content-type` header (absent when the server sent none), the raw body
text (`response.text`; empty text coincides with empty `response.content`),
the result of `response.json()` (`none` when decoding raises), and the
`str` of the decode exception for the failing case. -/
structure HttpResponse where
  status_code : Nat
  content_type : Option String := none
  text : String := ""
  json : Option Json := none
  decodeErrorText : String := "Expecting value: line 1 column 1 (char 0)"

/-- What one `client.request` call produced: a response, or an
`httpx.RequestError` (network/timeout) with its description. -/
inductive TransportOutcome where
  | response (r : HttpResponse)
  | requestError (desc : String)

/-- The outcome of `authenticated_request`: the decoded payload (`none`
for a 204/empty-body success) or a raised `SkyviaAPIError`. -/
inductive RequestResult where
  | success (payload : Option Json)
  | failure (e : SkyviaAPIError)

/-- Embeds the response-interpretation part of `authenticated_request`
(utils.py lines 64-100): `raise_for_status` fails for every non-2xx
status; a 204 or empty body yields no content; a non-JSON content-type on
a 2xx raises the unexpected-content-type `SkyviaAPIError`, which the
function's own blanket `except Exception` clause (lines 107-109) then
re-wraps with the message `"An unexpected error occurred: ..."`, dropping
its status code and details; a JSON decode failure on a 2xx raises
`json.JSONDecodeError`, a `ValueError`, reported through the
`except ValueError` clause (lines 104-106).  On a non-2xx status the body
is decoded if possible: a dict body yields its `message` field (else the
`str` of the whole body) and is carried as details; a decoded non-dict
body makes `.get` raise `AttributeError`, so the message falls back to the
raw text (or `"HTTP Error <status>"` when the text is empty) while the
decoded body is still carried as details; an undecodable body uses the
raw-text fallback with no details. -/
def handleResponse (r : HttpResponse) : RequestResult :=
  if 200 ≤ r.status_code ∧ r.status_code < 300 then
    if r.status_code = 204 ∨ r.text = "" then .success none
    else
      let content_type := strToLower (r.content_type.getD "")
      if strContainsSub content_type "application/json" then
        match r.json with
        | some j => .success (some j)
        | none => .failure ⟨"Configuration or Input Error: " ++ r.decodeErrorText, none, none⟩
      else
        let inner : SkyviaAPIError :=
          ⟨"Unexpected content type received: " ++ content_type, some r.status_code, some (.str r.text)⟩
        .failure ⟨"An unexpected error occurred: " ++ inner.render, none, none⟩
  else
    let fallback := if r.text = "" then "HTTP Error " ++ toString r.status_code else r.text
    match r.json with
    | some (Json.obj fields) =>
      .failure ⟨(match lookupField fields "message" with
                 | some v => pyStr v
                 | none => pyStr (Json.obj fields)),
                some r.status_code, some (Json.obj fields)⟩
    | some j => .failure ⟨fallback, some r.status_code, some j⟩
    | none => .failure ⟨fallback, some r.status_code, none⟩

/-- Embeds `authenticated_request` (utils.py lines 21-109) over an
explicit transport outcome: resolve the credential (a `ValueError` there
surfaces through the `except ValueError` clause as a Configuration error),
then interpret the transport outcome (`httpx.RequestError` surfaces as a
Transport error with no status code). -/
def authenticated_request (st : ConfigState) (outcome : TransportOutcome) : RequestResult :=
  match get_api_key st with
  | .error msg => .failure ⟨"Configuration or Input Error: " ++ msg, none, none⟩
  | .ok _ =>
    match outcome with
    | .requestError desc => .failure ⟨"Request failed: " ++ desc, none, none⟩
    | .response r => handleResponse r

/-! Resource DTOs and their pydantic validation, from
src/api/workspaces.py, src/api/automations.py and src/api/backups.py.
The validators model `Model.model_validate` for the exact JSON kinds these
DTOs declare; pydantic's lax coercions from other kinds (numeric strings,
timestamps) are outside what any payload of this repository exercises.
`none` models a raised `pydantic.ValidationError`. -/

/-- Checks a string against the `YYYY-MM-DDTHH:MM:SS` datetime text the
repository's payloads carry; models the subset of pydantic's accepted
`datetime` formats that is exercised here. -/
def isIsoDateTime (s : String) : Bool :=
  let cs := s.data
  cs.length = 19 &&
  ([0, 1, 2, 3, 5, 6, 8, 9, 11, 12, 14, 15, 17, 18].all fun i =>
    match cs.get? i with
    | some c => c.isDigit
    | none => false) &&
  cs.get? 4 == some (Char.ofNat 45) && cs.get? 7 == some (Char.ofNat 45) &&
  cs.get? 10 == some (Char.ofNat 84) && cs.get? 13 == some (Char.ofNat 58) &&
  cs.get? 16 == some (Char.ofNat 58)

/-- Validates one field declared `datetime` (required): a well-formed
datetime string, carried as its source text. -/
def validateDateTime : Option Json → Option String
  | some (.str s) => if isIsoDateTime s then some s else none
  | _ => none

/-- Validates one field declared `int` (required). -/
def validateIntField : Option Json → Option Int
  | some (.num n) => some n
  | _ => none

/-- Validates one field declared `bool` (required). -/
def validateBoolField : Option Json → Option Bool
  | some (.bool b) => some b
  | _ => none

/-- Validates one field declared `str` (required). -/
def validateStrField : Option Json → Option String
  | some (.str s) => some s
  | _ => none

/-- Validates one field declared `Optional[str] = None`: absent or `null`
is carried as `none`. The outer `Option` is validation failure, the inner
one the field's absent state. -/
def validateOptStrField : Option Json → Option (Option String)
  | none => some none
  | some .null => some none
  | some (.str s) => some (some s)
  | some _ => none

/-- Embeds `WorkspaceDto` (workspaces.py lines 12-16). -/
structure WorkspaceDto where
  id : Int
  name : Option String := none
  isPersonal : Bool
  deriving DecidableEq

/-- Models `WorkspaceDto.model_validate`. -/
def WorkspaceDto.validate (j : Json) : Option WorkspaceDto :=
  match j with
  | .obj fields =>
    match validateIntField (lookupField fields "id"),
          validateOptStrField (lookupField fields "name"),
          validateBoolField (lookupField fields "isPersonal") with
    | some i, some n, some p => some ⟨i, n, p⟩
    | _, _, _ => none
  | _ => none

/-- Embeds `AutomationDto` (automations.py lines 13-19); the two
`datetime` fields are carried as their validated source text. -/
structure AutomationDto where
  id : Int
  name : Option String := none
  triggerType : String
  created : String
  modified : String
  deriving DecidableEq

/-- Models `AutomationDto.model_validate`. -/
def AutomationDto.validate (j : Json) : Option AutomationDto :=
  match j with
  | .obj fields =>
    match validateIntField (lookupField fields "id"),
          validateOptStrField (lookupField fields "name"),
          validateStrField (lookupField fields "triggerType"),
          validateDateTime (lookupField fields "created"),
          validateDateTime (lookupField fields "modified") with
    | some i, some n, some t, some c, some m => some ⟨i, n, t, c, m⟩
    | _, _, _, _, _ => none
  | _ => none

/-- Embeds `AutomationDtoHasMorePagingDto` (automations.py lines 21-24):
`data: Optional[List[AutomationDto]] = None` and a required boolean
`hasMore`. -/
structure AutomationDtoHasMorePagingDto where
  data : Option (List AutomationDto) := none
  hasMore : Bool
  deriving DecidableEq

/-- Models `AutomationDtoHasMorePagingDto.model_validate`: `hasMore` is
required; `data` absent or `null` stays at its `None` default, a list is
validated element-wise, anything else fails. -/
def AutomationDtoHasMorePagingDto.validate (j : Json) :
    Option AutomationDtoHasMorePagingDto :=
  match j with
  | .obj fields =>
    match validateBoolField (lookupField fields "hasMore") with
    | none => none
    | some hm =>
      match lookupField fields "data" with
      | none => some ⟨none, hm⟩
      | some .null => some ⟨none, hm⟩
      | some (.arr items) => (items.mapM AutomationDto.validate).map fun l => ⟨some l, hm⟩
      | some _ => none
  | _ => none

/-- Embeds `AutomationExecutionStateDto` (automations.py lines 51-56). -/
structure AutomationExecutionStateDto where
  executionId : Int
  date : String
  state : Option String := none
  testMode : Bool
  deriving DecidableEq

/-- Models `AutomationExecutionStateDto.model_validate`. -/
def AutomationExecutionStateDto.validate (j : Json) :
    Option AutomationExecutionStateDto :=
  match j with
  | .obj fields =>
    match validateIntField (lookupField fields "executionId"),
          validateDateTime (lookupField fields "date"),
          validateOptStrField (lookupField fields "state"),
          validateBoolField (lookupField fields "testMode") with
    | some i, some d, some s, some t => some ⟨i, d, s, t⟩
    | _, _, _, _ => none
  | _ => none

/-- Embeds `BackupActiveRunDto` (backups.py lines 50-55). -/
structure BackupActiveRunDto where
  runId : Int
  date : String
  duration : Int
  state : String
  deriving DecidableEq

/-- Models `BackupActiveRunDto.model_validate`. -/
def BackupActiveRunDto.validate (j : Json) : Option BackupActiveRunDto :=
  match j with
  | .obj fields =>
    match validateIntField (lookupField fields "runId"),
          validateDateTime (lookupField fields "date"),
          validateIntField (lookupField fields "duration"),
          validateStrField (lookupField fields "state") with
    | some i, some d, some du, some s => some ⟨i, d, du, s⟩
    | _, _, _, _ => none
  | _ => none

/-! The tool layer.  Each tool issues one request (here: receives the
transport outcome for it) and post-processes exactly as the source does.
`Except SkyviaAPIError α` models a tool that returns `α` or raises. -/

/-- Models the `str(ValidationError)` text pydantic generates; its exact
wording is produced by the library, not by this repository's code, and no
behaviour below depends on it. -/
def pydanticErrorText : String := "1 validation error"

/-- The repeated call-site wrapping pattern
`raise SkyviaAPIError(f"<context>: \x7be\x7d", status_code=e.status_code,
details=e.details)`: the new message gains context and embeds `str(e)`,
status code and details are passed through unchanged. -/
def contextWrap (ctx : String) (e : SkyviaAPIError) : SkyviaAPIError :=
  ⟨ctx ++ ": " ++ e.render, e.status_code, e.details⟩

/-- Embeds `list_workspaces` (workspaces.py lines 23-52): a list body is
validated element-wise; any other payload raises the "Unexpected response
format" `SkyviaAPIError`, which the `except SkyviaAPIError` clause
re-raises unchanged; a `ValidationError` surfaces through the
`except Exception` clause. -/
def list_workspaces (st : ConfigState) (outcome : TransportOutcome) :
    Except SkyviaAPIError (List WorkspaceDto) :=
  match authenticated_request st outcome with
  | .failure e => .error e
  | .success response_data =>
    match response_data with
    | some (.arr items) =>
      match items.mapM WorkspaceDto.validate with
      | some ws => .ok ws
      | none => .error ⟨"An unexpected error occurred while listing workspaces: " ++
          pydanticErrorText, none, none⟩
    | _ => .error ⟨"Unexpected response format received: " ++ pyTypeName response_data,
        none, response_data⟩

/-- Embeds `get_workspace` (workspaces.py lines 54-86): a dict body is
validated; any other payload raises the "Unexpected response format"
error inside the `try`, which the `except SkyviaAPIError` clause wraps
with call-site context, as it wraps every `SkyviaAPIError` coming out of
`authenticated_request`. -/
def get_workspace (st : ConfigState) (workspace_id : Int)
    (outcome : TransportOutcome) : Except SkyviaAPIError WorkspaceDto :=
  let ctx := "Failed to get workspace " ++ toString workspace_id
  match authenticated_request st outcome with
  | .failure e => .error (contextWrap ctx e)
  | .success response_data =>
    match response_data with
    | some (.obj fields) =>
      match WorkspaceDto.validate (.obj fields) with
      | some w => .ok w
      | none => .error ⟨"An unexpected error occurred while getting workspace " ++
          toString workspace_id ++ ": " ++ pydanticErrorText, none, none⟩
    | _ => .error (contextWrap ctx
        ⟨"Unexpected response format received for workspace " ++ toString workspace_id ++
          ": " ++ pyTypeName response_data, none, response_data⟩)

/-- Embeds `list_automations` (automations.py lines 78-115) for a given
transport outcome (the `skip`/`take` query parameters only shape the
request descriptor, which the outcome already reflects). -/
def list_automations (st : ConfigState) (workspace_id : Int)
    (outcome : TransportOutcome) : Except SkyviaAPIError AutomationDtoHasMorePagingDto :=
  let ctx := "Failed to list automations for workspace " ++ toString workspace_id
  match authenticated_request st outcome with
  | .failure e => .error (contextWrap ctx e)
  | .success response_data =>
    match response_data with
    | some (.obj fields) =>
      match AutomationDtoHasMorePagingDto.validate (.obj fields) with
      | some page => .ok page
      | none => .error ⟨"An unexpected error occurred while listing automations for workspace " ++
          toString workspace_id ++ ": " ++ pydanticErrorText, none, none⟩
    | _ => .error (contextWrap ctx
        ⟨"Unexpected response format received for automations in workspace " ++
          toString workspace_id ++ ": " ++ pyTypeName response_data, none, response_data⟩)

/-- Embeds `get_automation` (automations.py lines 117-151). -/
def get_automation (st : ConfigState) (workspace_id automation_id : Int)
    (outcome : TransportOutcome) : Except SkyviaAPIError AutomationDto :=
  let ctx := "Failed to get details for automation " ++ toString automation_id ++
    " in workspace " ++ toString workspace_id
  match authenticated_request st outcome with
  | .failure e => .error (contextWrap ctx e)
  | .success response_data =>
    match response_data with
    | some (.obj fields) =>
      match AutomationDto.validate (.obj fields) with
      | some a => .ok a
      | none => .error ⟨"An unexpected error occurred while getting details for automation " ++
          toString automation_id ++ " in workspace " ++ toString workspace_id ++ ": " ++
          pydanticErrorText, none, none⟩
    | _ => .error (contextWrap ctx
        ⟨"Unexpected response format received for automation " ++ toString automation_id ++
          " in workspace " ++ toString workspace_id ++ ": " ++ pyTypeName response_data,
          none, response_data⟩)

/-- Embeds `get_active_automation_execution` (automations.py lines
293-338): a falsy or non-dict payload yields `None`; a dict whose
`executionId` is absent or falsy yields `None`; otherwise the dict is
validated and returned; a 404 `SkyviaAPIError` yields `None`, any other
`SkyviaAPIError` is wrapped with context; a `ValidationError` surfaces
through the `except Exception` clause. -/
def get_active_automation_execution (st : ConfigState)
    (workspace_id automation_id : Int) (outcome : TransportOutcome) :
    Except SkyviaAPIError (Option AutomationExecutionStateDto) :=
  match authenticated_request st outcome with
  | .success response_data =>
    if !optTruthy response_data || !optIsDict response_data then .ok none
    else
      match response_data with
      | some (.obj fields) =>
        match lookupField fields "executionId" with
        | some v =>
          if v.truthy then
            match AutomationExecutionStateDto.validate (.obj fields) with
            | some state => .ok (some state)
            | none => .error ⟨"An unexpected error occurred while getting active execution for automation " ++
                toString automation_id ++ ": " ++ pydanticErrorText, none, none⟩
          else .ok none
        | none => .ok none
      | _ => .ok none
  | .failure e =>
    if e.status_code == some 404 then .ok none
    else .error (contextWrap
      ("Failed to get active execution for automation " ++ toString automation_id) e)

/-- Embeds `get_active_backup_run` (backups.py lines 289-329), the same
idiom keyed on `runId`. -/
def get_active_backup_run (st : ConfigState)
    (workspace_id backup_id : Int) (outcome : TransportOutcome) :
    Except SkyviaAPIError (Option BackupActiveRunDto) :=
  match authenticated_request st outcome with
  | .success response_data =>
    if !optTruthy response_data || !optIsDict response_data then .ok none
    else
      match response_data with
      | some (.obj fields) =>
        match lookupField fields "runId" with
        | some v =>
          if v.truthy then
            match BackupActiveRunDto.validate (.obj fields) with
            | some state => .ok (some state)
            | none => .error ⟨"An unexpected error occurred while getting active run for backup " ++
                toString backup_id ++ ": " ++ pydanticErrorText, none, none⟩
          else .ok none
        | none => .ok none
      | _ => .ok none
  | .failure e =>
    if e.status_code == some 404 then .ok none
    else .error (contextWrap
      ("Failed to get active run for backup " ++ toString backup_id) e)

/-! Concrete fixtures used by the witnesses and counterexamples. -/

/-- A configuration whose override token is already set. -/
def goodConfig : ConfigState := { apiToken := some "token-123", env := fun _ => none }

/-- A configuration with no override and an empty environment. -/
def stNoToken : ConfigState := { apiToken := none, env := fun _ => none }

/-- A configuration with no override and the token present in the
environment. -/
def stEnvToken : ConfigState := { apiToken := none, env := fun _ => some "env-token" }

/-- A 404 response with a JSON `message` body. -/
def resp404 : HttpResponse :=
  { status_code := 404
    content_type := some "application/json"
    text := "\x7b\"message\":\"Not Found\"\x7d"
    json := some (.obj [("message", .str "Not Found")]) }

/-- A 500 response with an empty, undecodable body. -/
def respEmpty500 : HttpResponse := { status_code := 500 }

/-- A 500 response with a non-JSON text body. -/
def resp500boom : HttpResponse :=
  { status_code := 500, content_type := some "text/plain", text := "boom" }

/-- A 200 response with a non-JSON content type and a non-empty body. -/
def respHtml : HttpResponse :=
  { status_code := 200, content_type := some "text/html", text := "hello" }

/-- A 204 response carrying a non-JSON content type and an undecodable
body, to witness that neither is inspected. -/
def resp204 : HttpResponse :=
  { status_code := 204, content_type := some "text/html", text := "" }

/-- A 200 response whose body is the single-workspace list of the spec's
concrete round-trip scenario. -/
def respWs : HttpResponse :=
  { status_code := 200
    content_type := some "application/json"
    text := "[\x7b\"id\":1,\"name\":\"Acme\",\"isPersonal\":false\x7d]"
    json := some (.arr [.obj [("id", .num 1), ("name", .str "Acme"), ("isPersonal", .bool false)]]) }

/-- A 200 response carrying an active automation execution state. -/
def respActive : HttpResponse :=
  { status_code := 200
    content_type := some "application/json"
    text := "\x7b...\x7d"
    json := some (.obj [("executionId", .num 7), ("date", .str "2024-01-01T00:00:00"),
                        ("testMode", .bool false)]) }

/-- A 200 response carrying an active backup run state. -/
def respBackupActive : HttpResponse :=
  { status_code := 200
    content_type := some "application/json"
    text := "\x7b...\x7d"
    json := some (.obj [("runId", .num 9), ("date", .str "2024-01-01T00:00:00"),
                        ("duration", .num 60), ("state", .str "Running")]) }

/-- A 200 response whose object carries `executionId: 0`. -/
def respExecZero : HttpResponse :=
  { status_code := 200
    content_type := some "application/json"
    text := "\x7b...\x7d"
    json := some (.obj [("executionId", .num 0), ("date", .str "2024-01-01T00:00:00"),
                        ("testMode", .bool false)]) }

/-- A 200 response whose object carries `runId: null`. -/
def respRunNull : HttpResponse :=
  { status_code := 200
    content_type := some "application/json"
    text := "\x7b...\x7d"
    json := some (.obj [("runId", .null), ("state", .str "Running")]) }

/-- A 200 response whose object is empty. -/
def respEmptyObj : HttpResponse :=
  { status_code := 200
    content_type := some "application/json"
    text := "\x7b\x7d"
    json := some (.obj []) }

/-- A 200 response whose body is a JSON array rather than an object. -/
def respArrayBody : HttpResponse :=
  { status_code := 200
    content_type := some "application/json"
    text := "[1]"
    json := some (.arr [.num 1]) }

/-! Helper lemmas shared by the claim proofs. -/

/-- With the credential resolved, `authenticated_request` on a response is
exactly `handleResponse`. -/
theorem authenticated_request_of_key {st : ConfigState}
    (hkey : ∃ p, get_api_key st = .ok p) (r : HttpResponse) :
    authenticated_request st (.response r) = handleResponse r := by
  obtain ⟨p, hp⟩ := hkey
  simp only [authenticated_request, hp]

/-- With the credential resolved, a transport error surfaces as the
Transport-classified failure. -/
theorem authenticated_request_requestError {st : ConfigState}
    (hkey : ∃ p, get_api_key st = .ok p) (desc : String) :
    authenticated_request st (.requestError desc) =
      .failure ⟨"Request failed: " ++ desc, none, none⟩ := by
  obtain ⟨p, hp⟩ := hkey
  simp only [authenticated_request, hp]

/-- A non-2xx response yields the HTTP-classified failure carrying its
status code, whatever the body. -/
theorem handleResponse_non2xx_status (r : HttpResponse)
    (h : ¬ (200 ≤ r.status_code ∧ r.status_code < 300)) :
    ∃ e, handleResponse r = .failure e ∧ e.status_code = some r.status_code := by
  unfold handleResponse
  rw [if_neg h]
  rcases r.json with _ | j
  · exact ⟨_, rfl, rfl⟩
  · cases j <;> exact ⟨_, rfl, rfl⟩

/-- A dict in which a key is found is non-empty. -/
theorem lookupField_ne_nil {fields : List (String × Json)} {key : String} {v : Json}
    (h : lookupField fields key = some v) : fields.isEmpty = false := by
  cases fields with
  | nil => simp [lookupField] at h
  | cons a l => rfl

/-- The absence guard of the active-resource operations is false on a
non-empty dict payload. -/
theorem activeGuard_false {fields : List (String × Json)}
    (hne : fields.isEmpty = false) :
    (!optTruthy (some (Json.obj fields)) || !optIsDict (some (Json.obj fields))) = false := by
  simp [optTruthy, optIsDict, Json.truthy, hne]

/-- C1: for the active-resource operations `get_active_automation_execution`
and `get_active_backup_run`, an HTTP 404 from the request engine, a
successful response whose payload is empty (no content) or not an object,
and a successful object payload lacking the primary identifier field
(`executionId` / `runId`) all yield the absent result `.ok none` rather
than an error; a successful object payload whose primary identifier field
is present (with a truthy value) validates and the typed value is
returned. -/
theorem active_resource_outcomes (st : ConfigState)
    (hkey : ∃ p, get_api_key st = .ok p) (wid aid bid : Int) :
    (∀ r : HttpResponse, r.status_code = 404 →
      get_active_automation_execution st wid aid (.response r) = .ok none ∧
      get_active_backup_run st wid bid (.response r) = .ok none) ∧
    (∀ outcome : TransportOutcome, authenticated_request st outcome = .success none →
      get_active_automation_execution st wid aid outcome = .ok none ∧
      get_active_backup_run st wid bid outcome = .ok none) ∧
    (∀ outcome j, authenticated_request st outcome = .success (some j) →
      optIsDict (some j) = false →
      get_active_automation_execution st wid aid outcome = .ok none ∧
      get_active_backup_run st wid bid outcome = .ok none) ∧
    (∀ outcome fields, authenticated_request st outcome = .success (some (.obj fields)) →
      lookupField fields "executionId" = none →
      get_active_automation_execution st wid aid outcome = .ok none) ∧
    (∀ outcome fields, authenticated_request st outcome = .success (some (.obj fields)) →
      lookupField fields "runId" = none →
      get_active_backup_run st wid bid outcome = .ok none) ∧
    (∀ outcome fields v dto, authenticated_request st outcome = .success (some (.obj fields)) →
      lookupField fields "executionId" = some v → v.truthy = true →
      AutomationExecutionStateDto.validate (.obj fields) = some dto →
      get_active_automation_execution st wid aid outcome = .ok (some dto)) ∧
    (∀ outcome fields v dto, authenticated_request st outcome = .success (some (.obj fields)) →
      lookupField fields "runId" = some v → v.truthy = true →
      BackupActiveRunDto.validate (.obj fields) = some dto →
      get_active_backup_run st wid bid outcome = .ok (some dto)) := by
  refine ⟨?_, ?_, ?_, ?_, ?_, ?_, ?_⟩
  · intro r h404
    obtain ⟨e, he, hs⟩ := handleResponse_non2xx_status r (by omega)
    rw [h404] at hs
    constructor
    · simp only [get_active_automation_execution, authenticated_request_of_key hkey, he, hs]
      rfl
    · simp only [get_active_backup_run, authenticated_request_of_key hkey, he, hs]
      rfl
  · intro outcome h
    constructor
    · simp only [get_active_automation_execution, h]
      rfl
    · simp only [get_active_backup_run, h]
      rfl
  · intro outcome j h hdict
    constructor
    · simp only [get_active_automation_execution, h, hdict]
      cases j <;> simp_all [optIsDict]
    · simp only [get_active_backup_run, h, hdict]
      cases j <;> simp_all [optIsDict]
  · intro outcome fields h hlook
    simp only [get_active_automation_execution, h]
    cases fields with
    | nil => rfl
    | cons a l =>
      simp [optTruthy, Json.truthy, optIsDict, hlook]
  · intro outcome fields h hlook
    simp only [get_active_backup_run, h]
    cases fields with
    | nil => rfl
    | cons a l =>
      simp [optTruthy, Json.truthy, optIsDict, hlook]
  · intro outcome fields v dto h hlook htruthy hval
    have hne := lookupField_ne_nil hlook
    simp only [get_active_automation_execution, h, activeGuard_false hne]
    simp [hlook, htruthy, hval]
  · intro outcome fields v dto h hlook htruthy hval
    have hne := lookupField_ne_nil hlook
    simp only [get_active_backup_run, h, activeGuard_false hne]
    simp [hlook, htruthy, hval]

/-- C1 witness: concrete instances of each absent outcome and of the
present-and-validated outcome, at the fixtures. -/
theorem active_resource_outcomes_witness :
    get_active_automation_execution goodConfig 1 2 (.response resp404) = .ok none ∧
    get_active_backup_run goodConfig 1 3 (.response resp404) = .ok none ∧
    get_active_automation_execution goodConfig 1 2 (.response resp204) = .ok none ∧
    get_active_automation_execution goodConfig 1 2 (.response respArrayBody) = .ok none ∧
    get_active_automation_execution goodConfig 1 2 (.response respEmptyObj) = .ok none ∧
    get_active_backup_run goodConfig 1 3 (.response respEmptyObj) = .ok none ∧
    get_active_automation_execution goodConfig 1 2 (.response respActive) =
      .ok (some { executionId := 7, date := "2024-01-01T00:00:00", testMode := false }) ∧
    get_active_backup_run goodConfig 1 3 (.response respBackupActive) =
      .ok (some { runId := 9, date := "2024-01-01T00:00:00", duration := 60, state := "Running" }) := by
  have h := active_resource_outcomes goodConfig ⟨_, rfl⟩ 1 2 3
  exact ⟨(h.1 resp404 rfl).1, (h.1 resp404 rfl).2,
    (h.2.1 (.response resp204) rfl).1,
    (h.2.2.1 (.response respArrayBody) (.arr [.num 1]) rfl rfl).1,
    h.2.2.2.1 (.response respEmptyObj) [] rfl rfl,
    h.2.2.2.2.1 (.response respEmptyObj) [] rfl rfl,
    h.2.2.2.2.2.1 (.response respActive)
      [("executionId", .num 7), ("date", .str "2024-01-01T00:00:00"), ("testMode", .bool false)]
      (.num 7) _ rfl rfl rfl rfl,
    h.2.2.2.2.2.2 (.response respBackupActive)
      [("runId", .num 9), ("date", .str "2024-01-01T00:00:00"), ("duration", .num 60),
        ("state", .str "Running")]
      (.num 9) _ rfl rfl rfl rfl⟩

/-- C2 counterexample: a 500 response whose body is empty is not decodable
as JSON, yet the error's message is the fallback `"HTTP Error 500"`, not
the raw response text (which is empty) as the claim states. -/
theorem error_message_counterexample :
    authenticated_request goodConfig (.response respEmpty500) =
      .failure { message := "HTTP Error 500", status_code := some 500 } ∧
    "HTTP Error 500" ≠ respEmpty500.text := by
  exact ⟨rfl, by decide⟩

/-- C2 (amended): on a non-2xx status, a body decoding to a JSON object
with a string `message` field yields a failure whose message is that
field's value, whose status code is the HTTP status, and whose details
carry the decoded body; an undecodable body yields the raw response text
as the message when that text is non-empty, and `"HTTP Error <status>"`
when the body is empty. -/
theorem error_message_extraction (st : ConfigState)
    (hkey : ∃ p, get_api_key st = .ok p) :
    (∀ (r : HttpResponse) (m : String) (fields : List (String × Json)),
      ¬ (200 ≤ r.status_code ∧ r.status_code < 300) →
      r.json = some (.obj fields) → lookupField fields "message" = some (.str m) →
      authenticated_request st (.response r) =
        .failure ⟨m, some r.status_code, some (.obj fields)⟩) ∧
    (∀ r : HttpResponse, ¬ (200 ≤ r.status_code ∧ r.status_code < 300) →
      r.json = none → r.text ≠ "" →
      authenticated_request st (.response r) =
        .failure ⟨r.text, some r.status_code, none⟩) ∧
    (∀ r : HttpResponse, ¬ (200 ≤ r.status_code ∧ r.status_code < 300) →
      r.json = none → r.text = "" →
      authenticated_request st (.response r) =
        .failure ⟨"HTTP Error " ++ toString r.status_code, some r.status_code, none⟩) := by
  refine ⟨?_, ?_, ?_⟩
  · intro r m fields h2xx hj hmsg
    rw [authenticated_request_of_key hkey]
    unfold handleResponse
    rw [if_neg h2xx, hj]
    simp [hmsg, pyStr]
  · intro r h2xx hj htext
    rw [authenticated_request_of_key hkey]
    unfold handleResponse
    rw [if_neg h2xx, hj]
    simp [htext]
  · intro r h2xx hj htext
    rw [authenticated_request_of_key hkey]
    unfold handleResponse
    rw [if_neg h2xx, hj]
    simp [htext]

/-- C2 witness: the amended behaviour at a 404 with a `message` body, a
500 with a plain-text body, and a 500 with an empty body. -/
theorem error_message_extraction_witness :
    authenticated_request goodConfig (.response resp404) =
      .failure ⟨"Not Found", some 404, some (.obj [("message", .str "Not Found")])⟩ ∧
    authenticated_request goodConfig (.response resp500boom) =
      .failure ⟨"boom", some 500, none⟩ ∧
    authenticated_request goodConfig (.response respEmpty500) =
      .failure ⟨"HTTP Error " ++ toString (500 : Nat), some 500, none⟩ := by
  have h := error_message_extraction goodConfig ⟨_, rfl⟩
  exact ⟨h.1 resp404 "Not Found" [("message", .str "Not Found")] (by decide) rfl rfl,
    h.2.1 resp500boom (by decide) rfl (by decide),
    h.2.2 respEmpty500 (by decide) rfl rfl⟩

/-- The paged-collection payload `\x7b"data": null, "hasMore": false\x7d`. -/
def pagingNullData : Json := .obj [("data", .null), ("hasMore", .bool false)]

/-- C3 counterexample: validating `data: null, hasMore: false` succeeds
but leaves `data` at its `None` default; the result is not the
empty-sequence normalization the claim states. -/
theorem paging_null_counterexample :
    AutomationDtoHasMorePagingDto.validate pagingNullData =
      some { data := none, hasMore := false } ∧
    ({ data := none, hasMore := false } : AutomationDtoHasMorePagingDto) ≠
      { data := some [], hasMore := false } := by
  exact ⟨rfl, by decide⟩

/-- C3 (amended): a paged-collection object whose `data` is `null` or
absent and whose `hasMore` is a boolean validates successfully — it is
not a validation failure — carrying the given `hasMore` and `data` in its
absent (`None`) state, and `list_automations` returns that value. -/
theorem paging_null_data (st : ConfigState)
    (hkey : ∃ p, get_api_key st = .ok p) (wid : Int) :
    (∀ (fields : List (String × Json)) (hm : Bool),
      (lookupField fields "data" = some .null ∨ lookupField fields "data" = none) →
      lookupField fields "hasMore" = some (.bool hm) →
      AutomationDtoHasMorePagingDto.validate (.obj fields) = some ⟨none, hm⟩) ∧
    (∀ (outcome : TransportOutcome) (fields : List (String × Json)) (hm : Bool),
      authenticated_request st outcome = .success (some (.obj fields)) →
      (lookupField fields "data" = some .null ∨ lookupField fields "data" = none) →
      lookupField fields "hasMore" = some (.bool hm) →
      list_automations st wid outcome = .ok ⟨none, hm⟩) := by
  have hval : ∀ (fields : List (String × Json)) (hm : Bool),
      (lookupField fields "data" = some .null ∨ lookupField fields "data" = none) →
      lookupField fields "hasMore" = some (.bool hm) →
      AutomationDtoHasMorePagingDto.validate (.obj fields) = some ⟨none, hm⟩ := by
    intro fields hm hdata hmore
    rcases hdata with hd | hd <;>
      simp [AutomationDtoHasMorePagingDto.validate, validateBoolField, hmore, hd]
  refine ⟨hval, ?_⟩
  intro outcome fields hm h hdata hmore
  simp only [list_automations, h, hval fields hm hdata hmore]

/-- C3 witness: the amended behaviour at the concrete `data: null,
hasMore: false` payload, both at the validator and through
`list_automations`. -/
theorem paging_null_data_witness :
    AutomationDtoHasMorePagingDto.validate pagingNullData =
      some { data := none, hasMore := false } ∧
    list_automations goodConfig 1 (.response
      { status_code := 200
        content_type := some "application/json"
        text := "\x7b\"data\":null,\"hasMore\":false\x7d"
        json := some pagingNullData }) = .ok { data := none, hasMore := false } := by
  have h := paging_null_data goodConfig ⟨_, rfl⟩ 1
  exact ⟨h.1 [("data", .null), ("hasMore", .bool false)] false (Or.inl rfl) rfl,
    h.2 _ [("data", .null), ("hasMore", .bool false)] false rfl (Or.inl rfl) rfl⟩

/-- C4: evaluating the engine at a 2xx response with a non-JSON content
type and a non-empty body.  The `raise` at utils.py line 79 constructs the
Unexpected-Content-Type error with the status code and the raw text as
details, but the function's own `except Exception` clause (lines 107-109)
catches it and re-raises a bare `SkyviaAPIError` whose message embeds the
inner error's string while `status_code` and `details` are `None` — the
call indeed never returns success, but the classified fields the claim
(and utils.py lines 79-83 themselves) promise are dropped. -/
theorem content_type_error_rewrapped :
    authenticated_request goodConfig (.response respHtml) =
      .failure { message := "An unexpected error occurred: [200] Skyvia API Error: Unexpected content type received: text/html"
                 status_code := none
                 details := none } := rfl

/-- C5: a 204 status, or any 2xx status with a zero-length body, yields
the no-content result; the response's content type and (un)decodability
are quantified over and hence never inspected. -/
theorem no_content_responses (st : ConfigState)
    (hkey : ∃ p, get_api_key st = .ok p) :
    ∀ r : HttpResponse, 200 ≤ r.status_code → r.status_code < 300 →
      (r.status_code = 204 ∨ r.text = "") →
      authenticated_request st (.response r) = .success none := by
  intro r h1 h2 h3
  rw [authenticated_request_of_key hkey]
  unfold handleResponse
  rw [if_pos ⟨h1, h2⟩, if_pos h3]

/-- C5 witness: a 204 with a non-JSON content type, and a 200 with an
empty body, both yield no content. -/
theorem no_content_responses_witness :
    authenticated_request goodConfig (.response resp204) = .success none ∧
    authenticated_request goodConfig (.response { status_code := 200, text := "" }) =
      .success none := by
  exact ⟨no_content_responses goodConfig ⟨_, rfl⟩ resp204 (by decide) (by decide) (Or.inl rfl),
    no_content_responses goodConfig ⟨_, rfl⟩ _ (by decide) (by decide) (Or.inr rfl)⟩

/-- C6: credential resolution order — an override set through
`set_api_key` wins regardless of the environment; otherwise a (non-empty)
value of the designated environment variable is returned and cached;
otherwise resolution fails with the Configuration message naming the
environment variable, and through the request engine this surfaces as a
Configuration-classified error with no status code. -/
theorem credential_resolution :
    (∀ (st st2 : ConfigState) (tok : String) (env2 : String → Option String),
      set_api_key st tok = .ok st2 →
      get_api_key { st2 with env := env2 } = .ok (tok, { st2 with env := env2 })) ∧
    (∀ (st : ConfigState) (v : String), st.apiToken = none →
      st.env API_TOKEN_ENV_VAR = some v → v ≠ "" →
      get_api_key st = .ok (v, { st with apiToken := some v })) ∧
    (∀ st : ConfigState, st.apiToken = none → st.env API_TOKEN_ENV_VAR = none →
      get_api_key st = .error tokenNotFoundMessage) ∧
    strContainsSub tokenNotFoundMessage API_TOKEN_ENV_VAR = true ∧
    (∀ (st : ConfigState) (outcome : TransportOutcome), st.apiToken = none →
      st.env API_TOKEN_ENV_VAR = none →
      authenticated_request st outcome =
        .failure ⟨"Configuration or Input Error: " ++ tokenNotFoundMessage, none, none⟩) := by
  have herr : ∀ st : ConfigState, st.apiToken = none → st.env API_TOKEN_ENV_VAR = none →
      get_api_key st = .error tokenNotFoundMessage := by
    intro st h1 h2
    simp [get_api_key, truthyOptStr, h1, get_env, h2]
  refine ⟨?_, ?_, herr, by decide, ?_⟩
  · intro st st2 tok env2 h
    unfold set_api_key at h
    by_cases ht : truthyStr tok = true
    · rw [if_pos ht] at h
      injection h with h2
      subst h2
      simp [get_api_key, truthyOptStr, ht]
    · rw [if_neg ht] at h
      cases h
  · intro st v h1 h2 hv
    have ht : truthyStr v = true := by
      unfold truthyStr
      cases hd : v.data.isEmpty
      · rfl
      · exact absurd (String.ext (by simpa using hd)) hv
    simp [get_api_key, truthyOptStr, h1, get_env, h2, ht]
  · intro st outcome h1 h2
    simp [authenticated_request, herr st h1 h2]

/-- C6 witness: the three resolution outcomes at concrete states — the
override wins over a populated environment, the environment value is
returned when no override exists, and the empty state fails with the
Configuration error naming `SKYVIA_API_TOKEN`. -/
theorem credential_resolution_witness :
    get_api_key { apiToken := some "cli-token", env := stEnvToken.env } =
      .ok ("cli-token", { apiToken := some "cli-token", env := stEnvToken.env }) ∧
    get_api_key stEnvToken = .ok ("env-token", { stEnvToken with apiToken := some "env-token" }) ∧
    get_api_key stNoToken = .error tokenNotFoundMessage ∧
    strContainsSub tokenNotFoundMessage API_TOKEN_ENV_VAR = true ∧
    authenticated_request stNoToken (.response resp404) =
      .failure ⟨"Configuration or Input Error: " ++ tokenNotFoundMessage, none, none⟩ := by
  have h := credential_resolution
  exact ⟨h.1 stNoToken _ "cli-token" stEnvToken.env rfl,
    h.2.1 stEnvToken "env-token" rfl rfl (by decide),
    h.2.2.1 stNoToken rfl rfl, h.2.2.2.1,
    h.2.2.2.2 stNoToken (.response resp404) rfl rfl⟩

/-- C7: the concrete round-trip scenario — GET `/v1/workspaces` against a
transport returning 200, JSON content type and body
`[\x7b"id":1,"name":"Acme","isPersonal":false\x7d]` yields, through
`list_workspaces`, the single-element typed list whose element has id 1,
name "Acme", isPersonal false. -/
theorem workspaces_round_trip :
    list_workspaces goodConfig (.response respWs) =
      .ok [{ id := 1, name := some "Acme", isPersonal := false }] := rfl

/-- C8: the call-site wrapping applied by `get_workspace` and
`list_automations` to every classified error coming out of
`authenticated_request` preserves the status code and the structured
details unchanged; only the message gains context (it becomes the context
string followed by the inner error's rendering). -/
theorem error_wrap_preserves (st : ConfigState) (wid : Int) :
    (∀ (ctx : String) (e : SkyviaAPIError),
      (contextWrap ctx e).status_code = e.status_code ∧
      (contextWrap ctx e).details = e.details ∧
      (contextWrap ctx e).message = ctx ++ ": " ++ e.render) ∧
    (∀ (outcome : TransportOutcome) (e : SkyviaAPIError),
      authenticated_request st outcome = .failure e →
      get_workspace st wid outcome =
        .error (contextWrap ("Failed to get workspace " ++ toString wid) e)) ∧
    (∀ (outcome : TransportOutcome) (e : SkyviaAPIError),
      authenticated_request st outcome = .failure e →
      list_automations st wid outcome =
        .error (contextWrap ("Failed to list automations for workspace " ++ toString wid) e)) := by
  refine ⟨fun ctx e => ⟨rfl, rfl, rfl⟩, ?_, ?_⟩
  · intro outcome e h
    simp only [get_workspace, h]
  · intro outcome e h
    simp only [list_automations, h]

/-- C8 witness: wrapping a concrete HTTP 500 error at both call sites, and
the field preservation at a concrete wrapped error. -/
theorem error_wrap_preserves_witness :
    get_workspace goodConfig 7 (.response resp500boom) =
      .error (contextWrap ("Failed to get workspace " ++ toString (7 : Int))
        ⟨"boom", some 500, none⟩) ∧
    list_automations goodConfig 7 (.response resp500boom) =
      .error (contextWrap ("Failed to list automations for workspace " ++ toString (7 : Int))
        ⟨"boom", some 500, none⟩) ∧
    (contextWrap "ctx" ⟨"m", some 500, some (.num 1)⟩).status_code = some 500 ∧
    (contextWrap "ctx" ⟨"m", some 500, some (.num 1)⟩).details = some (.num 1) := by
  have h := error_wrap_preserves goodConfig 7
  exact ⟨h.2.1 (.response resp500boom) ⟨"boom", some 500, none⟩ rfl,
    h.2.2 (.response resp500boom) ⟨"boom", some 500, none⟩ rfl,
    (h.1 "ctx" ⟨"m", some 500, some (.num 1)⟩).1,
    (h.1 "ctx" ⟨"m", some 500, some (.num 1)⟩).2.1⟩

/-- C9: for the active-resource operations, an object payload whose
primary identifier field is present but falsy (`0`, `null`, `false` or the
empty string) is normalized to the absent result, not validated — the
absence check is the truthiness of the field's value, not mere presence of
the key. -/
theorem falsy_id_absent (st : ConfigState)
    (hkey : ∃ p, get_api_key st = .ok p) (wid aid bid : Int) :
    (∀ (outcome : TransportOutcome) (fields : List (String × Json)) (v : Json),
      authenticated_request st outcome = .success (some (.obj fields)) →
      lookupField fields "executionId" = some v →
      (v = .num 0 ∨ v = .null ∨ v = .bool false ∨ v = .str "") →
      get_active_automation_execution st wid aid outcome = .ok none) ∧
    (∀ (outcome : TransportOutcome) (fields : List (String × Json)) (v : Json),
      authenticated_request st outcome = .success (some (.obj fields)) →
      lookupField fields "runId" = some v →
      (v = .num 0 ∨ v = .null ∨ v = .bool false ∨ v = .str "") →
      get_active_backup_run st wid bid outcome = .ok none) := by
  constructor
  · intro outcome fields v h hlook hv
    have htr : v.truthy = false := by rcases hv with rfl | rfl | rfl | rfl <;> rfl
    have hne := lookupField_ne_nil hlook
    simp only [get_active_automation_execution, h, activeGuard_false hne]
    simp [hlook, htr]
  · intro outcome fields v h hlook hv
    have htr : v.truthy = false := by rcases hv with rfl | rfl | rfl | rfl <;> rfl
    have hne := lookupField_ne_nil hlook
    simp only [get_active_backup_run, h, activeGuard_false hne]
    simp [hlook, htr]

/-- C9 witness: an object with `executionId: 0` and an object with
`runId: null` both normalize to the absent result. -/
theorem falsy_id_absent_witness :
    get_active_automation_execution goodConfig 1 2 (.response respExecZero) = .ok none ∧
    get_active_backup_run goodConfig 1 3 (.response respRunNull) = .ok none := by
  have h := falsy_id_absent goodConfig ⟨_, rfl⟩ 1 2 3
  exact ⟨h.1 (.response respExecZero)
      [("executionId", .num 0), ("date", .str "2024-01-01T00:00:00"), ("testMode", .bool false)]
      (.num 0) rfl rfl (Or.inl rfl),
    h.2 (.response respRunNull) [("runId", .null), ("state", .str "Running")]
      .null rfl rfl (Or.inr (Or.inl rfl))⟩

/-- C10: a classified error constructed with a (non-zero) status code
renders as `"[<status>] Skyvia API Error: <message>"` and one without a
status code as `"Skyvia API Error: <message>"`; the wrapping layer of
`get_automation` re-embeds the inner error's rendering, so the
caller-visible string of a wrapped HTTP error carries the
`"Skyvia API Error: "` marker twice and is never equal to the bare
upstream `message` field. -/
theorem error_string_format (st : ConfigState)
    (hkey : ∃ p, get_api_key st = .ok p) (wid aid : Int) :
    (∀ (m : String) (s : Nat) (d : Option Json), s ≠ 0 →
      SkyviaAPIError.render ⟨m, some s, d⟩ =
        "[" ++ toString s ++ "] " ++ "Skyvia API Error: " ++ m) ∧
    (∀ (m : String) (d : Option Json),
      SkyviaAPIError.render ⟨m, none, d⟩ = "Skyvia API Error: " ++ m) ∧
    (∀ (r : HttpResponse) (fields : List (String × Json)) (m : String),
      ¬ (200 ≤ r.status_code ∧ r.status_code < 300) →
      r.json = some (.obj fields) → lookupField fields "message" = some (.str m) →
      get_automation st wid aid (.response r) =
        .error (contextWrap ("Failed to get details for automation " ++ toString aid ++
          " in workspace " ++ toString wid)
          ⟨m, some r.status_code, some (.obj fields)⟩)) ∧
    (∀ (ctx m : String) (s : Nat) (d : Option Json), s ≠ 0 →
      (contextWrap ctx ⟨m, some s, d⟩).render.data =
        ("[" ++ toString s ++ "] " ++ "Skyvia API Error: " ++ ctx ++ ": " ++
          "[" ++ toString s ++ "] " ++ "Skyvia API Error: ").data ++ m.data ∧
      (contextWrap ctx ⟨m, some s, d⟩).render ≠ m) := by
  have hrender : ∀ (m : String) (s : Nat) (d : Option Json), s ≠ 0 →
      SkyviaAPIError.render ⟨m, some s, d⟩ =
        "[" ++ toString s ++ "] " ++ "Skyvia API Error: " ++ m := by
    intro m s d hs
    show (if s ≠ 0 then _ else _) = _
    rw [if_pos hs]
    simp only [← String.append_assoc]
  refine ⟨hrender, fun m d => rfl, ?_, ?_⟩
  · intro r fields m h2xx hj hmsg
    have ha : authenticated_request st (.response r) =
        .failure ⟨m, some r.status_code, some (.obj fields)⟩ := by
      rw [authenticated_request_of_key hkey]
      unfold handleResponse
      rw [if_neg h2xx, hj]
      simp [hmsg, pyStr]
    simp only [get_automation, ha]
  · intro ctx m s d hs
    have hdata : (contextWrap ctx ⟨m, some s, d⟩).render.data =
        ("[" ++ toString s ++ "] " ++ "Skyvia API Error: " ++ ctx ++ ": " ++
          "[" ++ toString s ++ "] " ++ "Skyvia API Error: ").data ++ m.data := by
      have houter : (contextWrap ctx ⟨m, some s, d⟩).render =
          "[" ++ toString s ++ "] " ++ "Skyvia API Error: " ++
            (ctx ++ ": " ++ SkyviaAPIError.render ⟨m, some s, d⟩) := by
        exact hrender _ s d hs
      have hstr : (contextWrap ctx ⟨m, some s, d⟩).render =
          ("[" ++ toString s ++ "] " ++ "Skyvia API Error: " ++ ctx ++ ": " ++
            "[" ++ toString s ++ "] " ++ "Skyvia API Error: ") ++ m := by
        rw [houter, hrender m s d hs]
        simp only [← String.append_assoc]
      rw [hstr, String.data_append]
    refine ⟨hdata, ?_⟩
    intro heq
    rw [heq] at hdata
    have hlen := congrArg List.length hdata
    rw [List.length_append] at hlen
    have hpos : 0 < ("[" ++ toString s ++ "] " ++ "Skyvia API Error: " ++ ctx ++ ": " ++
        "[" ++ toString s ++ "] " ++ "Skyvia API Error: ").data.length := by
      simp [String.data_append, List.length_append, List.length_cons, List.length_nil]
    omega

/-- C10 witness: rendering with and without a status code, the wrapped
error of `get_automation` at a concrete 404, and the wrapped rendering
differing from the bare upstream message. -/
theorem error_string_format_witness :
    SkyviaAPIError.render ⟨"boom", some 500, none⟩ =
      "[" ++ toString (500 : Nat) ++ "] " ++ "Skyvia API Error: " ++ "boom" ∧
    SkyviaAPIError.render ⟨"boom", none, none⟩ = "Skyvia API Error: " ++ "boom" ∧
    get_automation goodConfig 1 2 (.response resp404) =
      .error (contextWrap ("Failed to get details for automation " ++ toString (2 : Int) ++
        " in workspace " ++ toString (1 : Int))
        ⟨"Not Found", some 404, some (.obj [("message", .str "Not Found")])⟩) ∧
    (contextWrap "ctx" ⟨"msg", some 404, none⟩).render ≠ "msg" := by
  have h := error_string_format goodConfig ⟨_, rfl⟩ 1 2
  exact ⟨h.1 "boom" 500 none (by decide), h.2.1 "boom" none,
    h.2.2.1 resp404 [("message", .str "Not Found")] "Not Found" (by decide) rfl rfl,
    (h.2.2.2 "ctx" "msg" 404 none (by decide)).2⟩

end Skyvia
